import Mathlib

/-
  Verification of the sensor acquisition pipeline of the MicroZed IoT demo
  (uzed_iot.c).  The C code is shallowly embedded: the System aggregate is a
  Lean structure, bus transactions are driven by explicit environment values
  (one per hardware interaction, since the hardware is outside the program),
  the MAY_DIE abort-and-report macro becomes an explicit short-circuiting
  sequence, and every publish call is recorded in an event trace.  Machine
  integers are modelled with Nat and Int, with the 32-bit reinterpretation
  made explicit where the code relies on it; C float arithmetic on the
  decoded values is modelled by exact rationals.
-/

/-- Result code XST_SUCCESS of the Xilinx status header (outside src).
Modelled from the spec: a non-zero result code is a failure, zero is
success. -/
def XST_SUCCESS : Int := 0

/-- Result code XST_FAILURE of the Xilinx status header (outside src).
Modelled from the spec: the generic non-success code, value 1. -/
def XST_FAILURE : Int := 1

/-- The pdTRUE constant of FreeRTOS projdefs.h (outside src), value 1,
i.e. the true boolean. -/
def pdTRUE : Bool := true

/-- Semantics of the FreeRTOS configASSERT macro (outside src).  Modelled
from the spec: an assertion-grade halt that fires exactly when the asserted
condition is false. -/
def configASSERT_halts (cond : Bool) : Bool := !cond

/-- The topics that the MQTT client publishes (enum TOPIC). -/
inductive TOPIC where
  | TOPIC_BAROMETER_PRESSURE
  | TOPIC_BAROMETER_TEMPERATURE
  | TOPIC_BAROMETER_STATUS
  | TOPIC_THERMOCOUPLE_TEMPERATURE
  | TOPIC_THERMOCOUPLE_BOARD_TEMPERATURE
  | TOPIC_THERMOCOUPLE_STATUS
  | TOPIC_HYGROMETER_RELATIVE_HUMIDITY
  | TOPIC_HYGROMETER_HUMIDITY_SENSOR_TEMPERATURE
  | TOPIC_HYGROMETER_STATUS
  | TOPIC_SYSTEM_STATUS
  | TOPIC_LAST
deriving DecidableEq, Repr

/-- One entry of the channel identity table (struct TopicInfo).  The name
length field usNameLen is a cache of the string length and is omitted. -/
structure TopicInfo where
  eTopic : TOPIC
  pbName : String
deriving DecidableEq, Repr

/-- The fixed channel identity table pTopicInfo, including the TOPIC_LAST
sentinel entry (whose name pointer is NULL in the source, modelled as the
empty string; GetTopicInfo never dereferences it). -/
def pTopicInfo : List TopicInfo :=
  [ ⟨.TOPIC_BAROMETER_PRESSURE, "/remote_io_module/sensor_value/Pressure"⟩
  , ⟨.TOPIC_BAROMETER_TEMPERATURE, "/remote_io_module/sensor_value/Pressure_Sensor_Temp"⟩
  , ⟨.TOPIC_BAROMETER_STATUS, "/remote_io_module/sensor_status/LPS25HB_Error"⟩
  , ⟨.TOPIC_THERMOCOUPLE_TEMPERATURE, "/remote_io_module/sensor_value/Thermocouple_Temp"⟩
  , ⟨.TOPIC_THERMOCOUPLE_BOARD_TEMPERATURE, "/remote_io_module/sensor_value/Board_Temp_1"⟩
  , ⟨.TOPIC_THERMOCOUPLE_STATUS, "/remote_io_module/sensor_status/MAX31855_Error"⟩
  , ⟨.TOPIC_HYGROMETER_RELATIVE_HUMIDITY, "/remote_io_module/sensor_value/Relative_Humidity"⟩
  , ⟨.TOPIC_HYGROMETER_HUMIDITY_SENSOR_TEMPERATURE, "/remote_io_module/sensor_value/Humidity_Sensor_Temp"⟩
  , ⟨.TOPIC_HYGROMETER_STATUS, "/remote_io_module/sensor_status/HTS221_Error"⟩
  , ⟨.TOPIC_SYSTEM_STATUS, "/remote_io_module/sensor_status/System_Error"⟩
  , ⟨.TOPIC_LAST, ""⟩ ]

/-- The scanning loop of GetTopicInfo: walk the table until the TOPIC_LAST
sentinel, returning the first entry whose identity matches. -/
def GetTopicInfoScan : List TopicInfo → TOPIC → Option TopicInfo
  | [], _ => none
  | ti :: rest, t =>
      if ti.eTopic = .TOPIC_LAST then none
      else if ti.eTopic = t then some ti
      else GetTopicInfoScan rest t

/-- GetTopicInfo: look an identity up in the fixed table.  A miss falls out
of the scan loop; in the source that path executes configASSERT(pdTRUE) and
then returns NULL. -/
def GetTopicInfo (eTopic : TOPIC) : Option TopicInfo :=
  GetTopicInfoScan pTopicInfo eTopic

/-- Whether the GetTopicInfo call halts in an assertion.  The miss path of
the source executes configASSERT( pdTRUE ); a hit executes no assertion. -/
def GetTopicInfoHalts (eTopic : TOPIC) : Bool :=
  match GetTopicInfoScan pTopicInfo eTopic with
  | some _ => false
  | none => configASSERT_halts pdTRUE

/-- System handle contents (struct System).  The bus, GPIO and broker
handles are opaque to the sensor pipeline and are carried as abstract
values; xMQTTHandle is none when no broker connection exists (NULL). -/
structure System where
  iic : Nat
  gpio : Nat
  xMQTTHandle : Option Nat
  pbHygrometerCalibration : List Nat
  rc : Int
  pcErr : String
  eTopic : TOPIC
deriving DecidableEq, Repr

/-- One recorded invocation of prvPublishTopic: the channel identity, the
printf format template, and the formatted arguments (result codes and
measurements alike, as exact rationals). -/
structure Publish where
  topic : TOPIC
  fmt : String
  args : List ℚ
deriving DecidableEq, Repr

/-- Outcome of the lookup-and-publish path of prvPublishTopic. -/
inductive PublishLookup where
  | noBroker
  | published (name : String)
  | missingEntryReached
deriving DecidableEq, Repr

/-- The channel resolution performed by prvPublishTopic: no-op without a
broker handle; otherwise the identity is resolved through GetTopicInfo.  On
a table miss the configASSERT(pdTRUE) inside GetTopicInfo does not halt
(its condition is true), NULL is returned, and execution continues into the
publish parameter setup with the missing entry. -/
def prvPublishTopicLookup (s : System) (eTopic : TOPIC) : PublishLookup :=
  if s.xMQTTHandle = none then .noBroker
  else
    match GetTopicInfo eTopic with
    | some ti => .published ti.pbName
    | none => .missingEntryReached

/-- A System value as prepared by StartSystem after a successful broker
connection: result code XST_SUCCESS, diagnostic text Success, error topic
TOPIC_SYSTEM_STATUS, calibration buffer not yet read. -/
def initSystem : System :=
  { iic := 0
  , gpio := 0
  , xMQTTHandle := some 0
  , pbHygrometerCalibration := List.replicate 16 0
  , rc := XST_SUCCESS
  , pcErr := "Success"
  , eTopic := .TOPIC_SYSTEM_STATUS }

/-
  The step model.  A step takes the System, returns the new System, the
  publish calls it performed, and some result, or none when the step ended
  in the goto L_DIE path of the MAY_DIE macro.
-/

/-- Type of one embedded step of a multi-step operation. -/
def M (α : Type) : Type := System → System × List Publish × Option α

/-- Step that returns a value without touching the System. -/
def mpure {α : Type} (a : α) : M α := fun s => (s, [], some a)

/-- Sequencing of steps: the second runs only when the first did not die;
publish traces accumulate. -/
def mbind {α β : Type} (x : M α) (f : α → M β) : M β := fun s =>
  match x s with
  | (s1, p1, none) => (s1, p1, none)
  | (s1, p1, some a) =>
      match f a s1 with
      | (s2, p2, r) => (s2, p1 ++ p2, r)

/-- A direct publish call (prvPublishTopic with an explicit topic), as in
the success reports and the measurement publishes. -/
def mpub (t : TOPIC) (fmt : String) (args : List ℚ) : M Unit :=
  fun s => (s, [⟨t, fmt, args⟩], some ())

/-- The MAY_DIE macro around a plain statement block f: run the block, then
publish pcErr with the result code on the current error topic and abort if
the result code is not XST_SUCCESS. -/
def mayDieBlock (f : System → System) : M Unit := fun s =>
  let s1 := f s
  if s1.rc = XST_SUCCESS then (s1, [], some ())
  else (s1, [⟨s1.eTopic, s1.pcErr, [(s1.rc : ℚ)]⟩], none)

/-- The MAY_DIE macro around an inner bus operation followed by the
assignment of the diagnostic text for that step: the text is assigned
unconditionally after the inner operation, then the result code is checked;
on failure the (re)assigned text is published with the code and the
operation aborts. -/
def mayDie {α : Type} (inner : M α) (msg : String) : M α := fun s =>
  match inner s with
  | (s1, p1, r) =>
      let s2 := { s1 with pcErr := msg }
      if s2.rc = XST_SUCCESS then (s2, p1, r)
      else (s2, p1 ++ [⟨s2.eTopic, msg, [(s2.rc : ℚ)]⟩], none)

/-
  Register access layer.  One IIC read transaction is a send phase (the
  register address) and a receive phase (the data); the environment value
  says which phase, if any, failed, and carries the bytes left in the
  caller buffer.
-/

/-- Environment value describing the outcome of one ReadIicRegs call. -/
inductive IicRes where
  | ok (bs : List Nat)
  | errSend (bs : List Nat)
  | errRecv (received : Int) (bs : List Nat)
deriving DecidableEq, Repr

/-- Bytes deposited in the caller buffer by the receive phase. -/
def IicRes.bytes : IicRes → List Nat
  | .ok bs => bs
  | .errSend bs => bs
  | .errRecv _ bs => bs

/-- Environment value describing the outcome of one WriteIicRegs send. -/
inductive IicWrite where
  | ok
  | errSend (sent : Int)
deriving DecidableEq, Repr

/-- ReadIicRegs: send the (possibly auto-increment flagged) first register
address, then receive xCount bytes.  Each phase sits in its own MAY_DIE:
a send failure sets rc to 1, a receive count mismatch sets rc to the
received count; either inner MAY_DIE publishes its own diagnostic and
aborts when rc is non-zero afterwards. -/
def ReadIicRegs (res : IicRes) (xCount : Int) (bFirstSlaveReg : Nat) : M (List Nat) :=
  fun s =>
    let _addr := if 1 < xCount then bFirstSlaveReg ||| 0x80 else bFirstSlaveReg
    let s1 :=
      match res with
      | .errSend _ => { s with rc := 1, pcErr := "ReadIicRegs::XIic_Send(Addr) -> %08x" }
      | _ => s
    if s1.rc = XST_SUCCESS then
      let s2 :=
        match res with
        | .errRecv received _ =>
            { s1 with rc := received, pcErr := "ReadIicRegs::XIic_Recv(Data) -> %08x" }
        | _ => s1
      if s2.rc = XST_SUCCESS then (s2, [], some res.bytes)
      else (s2, [⟨s2.eTopic, s2.pcErr, [(s2.rc : ℚ)]⟩], none)
    else (s1, [⟨s1.eTopic, s1.pcErr, [(s1.rc : ℚ)]⟩], none)

/-- ReadIicReg: the single-register read, returning the one byte read. -/
def ReadIicReg (res : IicRes) (bSlaveReg : Nat) : M Nat :=
  mbind (ReadIicRegs res 1 bSlaveReg) fun bs => mpure (bs.headD 0)

/-- The in-place mutation WriteIicRegs performs on the caller buffer before
sending: with more than two bytes the top bit of the first byte (the
register address) is set to select auto-increment addressing. -/
def WriteIicRegsBuf (xCount : Int) (pbBuf : List Nat) : List Nat :=
  if 2 < xCount then
    match pbBuf with
    | [] => []
    | b :: rest => (b ||| 0x80) :: rest
  else pbBuf

/-- WriteIicRegs: mutate the caller buffer per WriteIicRegsBuf, send it,
and on a sent-count mismatch set rc to the sent count and let the inner
MAY_DIE publish and abort.  The third component is the caller buffer after
the call, which is mutated whether or not the send succeeds. -/
def WriteIicRegs (res : IicWrite) (xCount : Int) (pbBuf : List Nat) :
    System → System × List Publish × List Nat × Option Unit := fun s =>
  let buf := WriteIicRegsBuf xCount pbBuf
  let s1 :=
    match res with
    | .ok => s
    | .errSend sent => { s with rc := sent, pcErr := "WriteIicRegs::XIic_Send(Buf) -> %08x" }
  if s1.rc = XST_SUCCESS then (s1, [], buf, some ())
  else (s1, [⟨s1.eTopic, s1.pcErr, [(s1.rc : ℚ)]⟩], buf, none)

/-- Adapter dropping the buffer component of WriteIicRegs for callers that
pass a local two-byte buffer. -/
def WriteIicRegsStep (res : IicWrite) (xCount : Int) (pbBuf : List Nat) : M Unit :=
  fun s =>
    match WriteIicRegs res xCount pbBuf s with
    | (s1, p1, _, r) => (s1, p1, r)

/-- WriteIicReg: the single-register write (register number plus one value,
two bytes total). -/
def WriteIicReg (res : IicWrite) (bFirstSlaveReg : Nat) (bVal : Nat) : M Unit :=
  WriteIicRegsStep res 2 [bFirstSlaveReg, bVal]

/-
  Bounded-retry polling loops.  The C loops have the shape
  for(iTimeout = BOUND; iTimeout-- > 0; ) so the body runs with iTimeout
  values BOUND-1 down to 0; falling out of the loop leaves iTimeout = -1,
  while breaking in the body keeps the value the body saw.
-/

/-- Exit of a single-register polling loop: the bit was observed clear at
some iteration (carrying the iTimeout value at the break and the byte
read), or the retry bound was exhausted (iTimeout fell to -1). -/
inductive LoopExit where
  | cleared (iTimeout : Int) (b : Nat)
  | exhausted
deriving DecidableEq, Repr

/-- Value of the iTimeout counter right after the loop. -/
def LoopExit.iTimeoutVal : LoopExit → Int
  | .cleared k _ => k
  | .exhausted => -1

/-- One control-register polling loop: each iteration reads one register
inside MAY_DIE (reassigning the diagnostic text), breaks when the masked
bit is zero, and otherwise delays one tick and retries while fuel lasts.
The reads argument gives the outcome of the i-th read.  The recursion is
written with Nat.rec so that evaluation on concrete retry bounds unfolds
linearly. -/
def pollCtrl (reads : Nat → IicRes) (bReg : Nat) (mask : Nat) (msg : String)
    (fuel : Nat) : Nat → M LoopExit :=
  Nat.rec (motive := fun _ => Nat → M LoopExit)
    (fun _ => mpure .exhausted)
    (fun fuel ih idx =>
      mbind (mayDie (ReadIicReg (reads idx) bReg) msg) fun b =>
        if b &&& mask = 0 then mpure (.cleared (Int.ofNat fuel) b)
        else ih (idx + 1))
    fuel

/-- Unfolding of pollCtrl with exhausted fuel. -/
theorem pollCtrl_zero (reads : Nat → IicRes) (bReg mask : Nat) (msg : String) (idx : Nat) :
    pollCtrl reads bReg mask msg 0 idx = mpure .exhausted := rfl

/-- Unfolding of one pollCtrl iteration. -/
theorem pollCtrl_succ (reads : Nat → IicRes) (bReg mask : Nat) (msg : String)
    (fuel idx : Nat) :
    pollCtrl reads bReg mask msg (fuel + 1) idx =
      mbind (mayDie (ReadIicReg (reads idx) bReg) msg) fun b =>
        if b &&& mask = 0 then mpure (.cleared (Int.ofNat fuel) b)
        else pollCtrl reads bReg mask msg fuel (idx + 1) := rfl

/-- Exit of a status-block polling loop: the ready mask was observed fully
set in the status byte of some block read (carrying the iTimeout value at
the break and the whole block), or the retry bound was exhausted. -/
inductive BlockExit where
  | cleared (iTimeout : Int) (bs : List Nat)
  | exhausted
deriving DecidableEq, Repr

/-- Value of the xTimeout counter right after the block loop. -/
def BlockExit.iTimeoutVal : BlockExit → Int
  | .cleared k _ => k
  | .exhausted => -1

/-- The status-plus-data block of the break iteration; the timeout path
never reaches the decode that would use it. -/
def BlockExit.bytes : BlockExit → List Nat
  | .cleared _ bs => bs
  | .exhausted => []

/-- One status-block polling loop: each iteration reads xCount registers
starting at the status register inside MAY_DIE, and breaks when the data
ready mask is fully set in the first byte.  Written with Nat.rec like
pollCtrl. -/
def pollBlock (reads : Nat → IicRes) (xCount : Int) (bReg : Nat) (mask : Nat)
    (msg : String) (fuel : Nat) : Nat → M BlockExit :=
  Nat.rec (motive := fun _ => Nat → M BlockExit)
    (fun _ => mpure .exhausted)
    (fun fuel ih idx =>
      mbind (mayDie (ReadIicRegs (reads idx) xCount bReg) msg) fun bs =>
        if bs.headD 0 &&& mask = mask then mpure (.cleared (Int.ofNat fuel) bs)
        else ih (idx + 1))
    fuel

/-- Unfolding of pollBlock with exhausted fuel. -/
theorem pollBlock_zero (reads : Nat → IicRes) (xCount : Int) (bReg mask : Nat)
    (msg : String) (idx : Nat) :
    pollBlock reads xCount bReg mask msg 0 idx = mpure .exhausted := rfl

/-- Unfolding of one pollBlock iteration. -/
theorem pollBlock_succ (reads : Nat → IicRes) (xCount : Int) (bReg mask : Nat)
    (msg : String) (fuel idx : Nat) :
    pollBlock reads xCount bReg mask msg (fuel + 1) idx =
      mbind (mayDie (ReadIicRegs (reads idx) xCount bReg) msg) fun bs =>
        if bs.headD 0 &&& mask = mask then mpure (.cleared (Int.ofNat fuel) bs)
        else pollBlock reads xCount bReg mask msg fuel (idx + 1) := rfl

/-
  Raw-to-physical decoding of the barometer sample (ST TN1228) and the
  thermocouple frame (MAX31855).  The s32 accumulator of the C code is kept
  as the 32-bit pattern (a Nat) and reinterpreted once at the end.
-/

/-- Reinterpretation of a 32-bit pattern as a signed 32-bit value. -/
def toS32 (u : Nat) : Int :=
  if u % 4294967296 < 2147483648 then ((u % 4294967296 : Nat) : Int)
  else ((u % 4294967296 : Nat) : Int) - 4294967296

/-- The sqTmp accumulator of the pressure decode before sign extension:
the three output bytes assembled little-endian. -/
def baroPressureRaw (xl l h : Nat) : Nat := xl ||| (l <<< 8) ||| (h <<< 16)

/-- Pressure decode of SampleBarometer: assemble the three output bytes
little-endian, and if bit 23 is set OR in the sign-extension pattern
0xFF800000 of the s32 accumulator. -/
def baroPressureSigned (xl l h : Nat) : Int :=
  if baroPressureRaw xl l h &&& 0x800000 ≠ 0 then toS32 (baroPressureRaw xl l h ||| 0xFF800000)
  else (baroPressureRaw xl l h : Int)

/-- The sqTmp accumulator of the temperature decode before sign extension:
the two output bytes assembled little-endian. -/
def baroTempRaw (tl th : Nat) : Nat := tl ||| (th <<< 8)

/-- Temperature decode of SampleBarometer: assemble the two output bytes
little-endian, and if bit 15 is set OR in the sign-extension pattern
0xFFFF8000. -/
def baroTempSigned (tl th : Nat) : Int :=
  if baroTempRaw tl th &&& 0x8000 ≠ 0 then toS32 (baroTempRaw tl th ||| 0xFFFF8000)
  else (baroTempRaw tl th : Int)

/-- Concatenated 12-bit internal junction field before sign extension:
receive byte 2 shifted left 4, OR receive byte 3 shifted right 4. -/
def max31855InternalRaw (rx2 rx3 : Nat) : Nat := (rx2 <<< 4) ||| (rx3 >>> 4)

/-- Internal junction field of SamplePLTempSensor, sign-extended with
0xFFFFF800 when bit 7 of receive byte 2 is set. -/
def max31855InternalSigned (rx2 rx3 : Nat) : Int :=
  if rx2 &&& 0x80 = 0x80 then toS32 (max31855InternalRaw rx2 rx3 ||| 0xFFFFF800)
  else (max31855InternalRaw rx2 rx3 : Int)

/-- Concatenated 14-bit thermocouple field before sign extension: receive
byte 0 shifted left 6, OR receive byte 1 shifted right 2. -/
def max31855ThermoRaw (rx0 rx1 : Nat) : Nat := (rx0 <<< 6) ||| (rx1 >>> 2)

/-- Thermocouple field of SamplePLTempSensor, sign-extended with
0xFFFFE000 when bit 7 of receive byte 0 is set. -/
def max31855ThermoSigned (rx0 rx1 : Nat) : Int :=
  if rx0 &&& 0x80 = 0x80 then toS32 (max31855ThermoRaw rx0 rx1 ||| 0xFFFFE000)
  else (max31855ThermoRaw rx0 rx1 : Int)

/-
  Sensor drivers.
-/

/-- Environment of one StartBarometer call: outcomes of the WHO_AM_I read,
the two control-register writes of the reset sequence, the two polling
loops, and the power-up write. -/
structure StartBaroEnv where
  whoAmI : IicRes
  wSwreset : IicWrite
  swresetReads : Nat → IicRes
  wBoot : IicWrite
  bootReads : Nat → IicRes
  wPd : IicWrite

/-- StartBarometer: set the error topic, check the identity register
against 0xBD (reporting the observed byte as the result code on mismatch),
issue swreset and poll 100 times for the bit to clear (exhaustion sets
rc = XST_FAILURE), issue boot and poll 100 times (the exhaustion branch
assigns only the diagnostic text), power the device up, and report
success. -/
def StartBarometer (env : StartBaroEnv) : M Unit := fun s0 =>
  (mbind (mayDie (ReadIicReg env.whoAmI 0x0F) "ReadIicReg(WHO_AM_I) -> %08x") fun b =>
   mbind (mayDieBlock fun s =>
       if b ≠ 0xBD then
         { s with rc := (b : Int), pcErr := "BAROMETER_WHO_AM_I = %08x != BD" }
       else s) fun _ =>
   mbind (mayDie (WriteIicReg env.wSwreset 0x21 0x04)
       "WriteIicReg(BAROMETER_REG_CTRL_REG2::BFLD_SWRESET) -> %08x") fun _ =>
   mbind (pollCtrl env.swresetReads 0x21 0x04
       "ReadIicReg(BAROMETER_REG_CTRL_REG2) -> %08x" 100 0) fun ex1 =>
   mbind (if ex1.iTimeoutVal ≤ 0 then
       mayDieBlock fun s => { s with rc := XST_FAILURE, pcErr := "Barometer swreset timeout" }
     else mpure ()) fun _ =>
   mbind (mayDie (WriteIicReg env.wBoot 0x21 0x80)
       "WriteIicReg(BAROMETER_REG_CTRL_REG2::BAROMETER_BFLD_BOOT -> %08x") fun _ =>
   mbind (pollCtrl env.bootReads 0x21 0x80
       "ReadIicReg(BAROMETER_REG_CTRL_REG2) -> %08x" 100 0) fun ex2 =>
   mbind (if ex2.iTimeoutVal ≤ 0 then
       mayDieBlock fun s => { s with pcErr := "Barometer boot timeout" }
     else mpure ()) fun _ =>
   mbind (mayDie (WriteIicReg env.wPd 0x20 0x80)
       "WriteIicReg(BAROMETER_REG_CTRL_REG1::BAROMETER_BFLD_PD) -> %08x") fun _ =>
   mpub .TOPIC_BAROMETER_STATUS "Barometer started" [])
  { s0 with eTopic := .TOPIC_BAROMETER_STATUS }

/-- One physical bus transaction, for recording which bus operations a
call performs. -/
inductive BusOp where
  | iicSend (slaveAddress : Nat) (bytes : List Nat)
  | iicRecv (slaveAddress : Nat) (count : Nat)
  | spiWriteReg (offset : Nat) (value : Nat)
  | spiReadReg (offset : Nat)
deriving DecidableEq, Repr

/-- StopBarometer: set the error topic; the body contains no bus
transaction and no publish, recorded by the two empty traces. -/
def StopBarometer (s : System) : System × List BusOp × List Publish :=
  ({ s with eTopic := .TOPIC_BAROMETER_STATUS }, [], [])

/-- Environment of one SampleBarometer call. -/
structure SampleBaroEnv where
  wOneShot : IicWrite
  oneShotReads : Nat → IicRes
  dataReads : Nat → IicRes

/-- SampleBarometer: set the error topic, trigger a one-shot conversion,
poll 50 times for the one-shot bit to self-clear, poll 50 times reading the
6-byte status and data block until both data-ready bits are set, then
publish the decoded pressure (divided by 4096, format with two decimals)
and temperature (42.5 plus the value divided by 480, two decimals). -/
def SampleBarometer (env : SampleBaroEnv) : M Unit := fun s0 =>
  (mbind (mayDie (WriteIicReg env.wOneShot 0x21 0x01)
       "WriteIicReg(BAROMETER_REG_CTRL_REG2::BAROMETER_BFLD_ONE_SHOT) -> %08x") fun _ =>
   mbind (pollCtrl env.oneShotReads 0x21 0x01
       "ReadIicRegs(6@BAROMETER_REG_STATUS_REG) -> %08x" 50 0) fun ex1 =>
   mbind (mayDieBlock fun s =>
       if ex1.iTimeoutVal ≤ 0 then
         { s with rc := XST_FAILURE, pcErr := "Timed out waiting for BAROMETER_BFLD_ONE_SHOT" }
       else s) fun _ =>
   mbind (pollBlock env.dataReads 6 0x27 0x03
       "ReadIicRegs(6@BAROMETER_REG_STATUS_REG) -> %08x" 50 0) fun ex2 =>
   mbind (mayDieBlock fun s =>
       if ex2.iTimeoutVal ≤ 0 then
         { s with rc := XST_FAILURE, pcErr := "Timed out waiting for P_DA and T_DA" }
       else s) fun _ =>
   mbind (mpub .TOPIC_BAROMETER_PRESSURE "%.2f hPa"
       [(baroPressureSigned (ex2.bytes.getD 1 0) (ex2.bytes.getD 2 0) (ex2.bytes.getD 3 0) : ℚ)
         / 4096]) fun _ =>
   mpub .TOPIC_BAROMETER_TEMPERATURE "%.2f C"
       [(42.5 : ℚ) + (baroTempSigned (ex2.bytes.getD 4 0) (ex2.bytes.getD 5 0) : ℚ) / 480])
  { s0 with eTopic := .TOPIC_BAROMETER_STATUS }

/-- Environment of one StartHygrometer call. -/
structure StartHygroEnv where
  whoAmI : IicRes
  wBoot : IicWrite
  bootReads : Nat → IicRes
  calib : IicRes
  wPd : IicWrite

/-- The calibration block read of StartHygrometer: like ReadIicRegs with 16
registers from HYGROMETER_REG_CALIB_0, except that the receive phase
deposits the bytes into the calibration buffer of the System itself.  A
send-phase failure aborts before the receive phase touches the buffer. -/
def ReadIicRegsCalib (res : IicRes) : M Unit := fun s =>
  let s1 :=
    match res with
    | .errSend _ => { s with rc := 1, pcErr := "ReadIicRegs::XIic_Send(Addr) -> %08x" }
    | _ => s
  if s1.rc = XST_SUCCESS then
    let s2 :=
      match res with
      | .errRecv received bs =>
          { s1 with rc := received, pcErr := "ReadIicRegs::XIic_Recv(Data) -> %08x"
                  , pbHygrometerCalibration := bs }
      | _ => { s1 with pbHygrometerCalibration := res.bytes }
    if s2.rc = XST_SUCCESS then (s2, [], some ())
    else (s2, [⟨s2.eTopic, s2.pcErr, [(s2.rc : ℚ)]⟩], none)
  else (s1, [⟨s1.eTopic, s1.pcErr, [(s1.rc : ℚ)]⟩], none)

/-- StartHygrometer: set the error topic, check the identity register
against 0xBC, issue boot and poll 1000 times for the bit to clear (the
exhaustion branch assigns only the diagnostic text), read and cache the
16-byte calibration block, power the device up, and report success. -/
def StartHygrometer (env : StartHygroEnv) : M Unit := fun s0 =>
  (mbind (mayDie (ReadIicReg env.whoAmI 0x0F) "ReadIicReg(HYGROMETER_WHO_AM_I) -> %08x") fun b =>
   mbind (mayDieBlock fun s =>
       if b ≠ 0xBC then
         { s with rc := (b : Int), pcErr := "HYGROMETER_WHO_AM_I = %08x != BC" }
       else s) fun _ =>
   mbind (mayDie (WriteIicReg env.wBoot 0x21 0x80)
       "WriteIicReg(HYGROMETER_REG_CTRL_REG2::HYGROMETER_BFLD_BOOT -> %08x") fun _ =>
   mbind (pollCtrl env.bootReads 0x21 0x80
       "ReadIicReg(BAROMETER_REG_CTRL_REG2) -> %08x" 1000 0) fun ex1 =>
   mbind (if ex1.iTimeoutVal ≤ 0 then
       mayDieBlock fun s => { s with pcErr := "Hygrometer boot timeout" }
     else mpure ()) fun _ =>
   mbind (mayDie (ReadIicRegsCalib env.calib)
       "ReadIicRegs(HYGROMETER_REG_CALIB_0) -> %08x") fun _ =>
   mbind (mayDie (WriteIicReg env.wPd 0x20 0x80)
       "WriteIicReg(HYGROMETER_REG_CTRL_REG1::HYGROMETER_BFLD_PD) -> %08x") fun _ =>
   mpub .TOPIC_HYGROMETER_STATUS "Hygrometer started" [])
  { s0 with eTopic := .TOPIC_HYGROMETER_STATUS }

/-- StopHygrometer: set the error topic; no bus transaction and no
publish. -/
def StopHygrometer (s : System) : System × List BusOp × List Publish :=
  ({ s with eTopic := .TOPIC_HYGROMETER_STATUS }, [], [])

/-- Environment of one SampleHygrometer call. -/
structure SampleHygroEnv where
  wOneShot : IicWrite
  oneShotReads : Nat → IicRes
  dataReads : Nat → IicRes

/-- SampleHygrometer: set the error topic, trigger a one-shot conversion,
poll 10000 times for the one-shot bit to self-clear, poll 50 times reading
the 5-byte status and data block until both data-ready bits are set, then
publish the placeholder humidity and temperature constants (the raw-value
conversion is an unimplemented placeholder in the source). -/
def SampleHygrometer (env : SampleHygroEnv) : M Unit := fun s0 =>
  (mbind (mayDie (WriteIicReg env.wOneShot 0x21 0x01)
       "WriteIicReg(HYGROMETER_REG_CTRL_REG2::HYGROMETER_BFLD_ONE_SHOT) -> %08x") fun _ =>
   mbind (pollCtrl env.oneShotReads 0x21 0x01
       "ReadIicRegs(6@HYGROMETER_REG_STATUS_REG) -> %08x" 10000 0) fun ex1 =>
   mbind (mayDieBlock fun s =>
       if ex1.iTimeoutVal ≤ 0 then
         { s with rc := XST_FAILURE, pcErr := "Timed out waiting for HYGROMETER_BFLD_ONE_SHOT" }
       else s) fun _ =>
   mbind (pollBlock env.dataReads 5 0x27 0x03
       "ReadIicRegs(6@HYGROMETER_REG_STATUS_REG) -> %08x" 50 0) fun ex2 =>
   mbind (mayDieBlock fun s =>
       if ex2.iTimeoutVal ≤ 0 then
         { s with rc := XST_FAILURE, pcErr := "Timed out waiting for HYGROMETER P_DA and T_DA" }
       else s) fun _ =>
   mbind (mpub .TOPIC_HYGROMETER_RELATIVE_HUMIDITY "%.2f %%rH" [(100 : ℚ)]) fun _ =>
   mpub .TOPIC_HYGROMETER_HUMIDITY_SENSOR_TEMPERATURE "%.2f C" [(1000 : ℚ)])
  { s0 with eTopic := .TOPIC_HYGROMETER_STATUS }

/-- StopPLTempSensor: set the error topic; no bus transaction and no
publish. -/
def StopPLTempSensor (s : System) : System × List BusOp × List Publish :=
  ({ s with eTopic := .TOPIC_THERMOCOUPLE_STATUS }, [], [])

/-- Outcome of the 4-byte framed SPI transfer of XSpi_LowLevelExecute:
either a byte-count mismatch (rc set to XST_FAILURE) or success with the
four received bytes (rc set to XST_SUCCESS). -/
inductive SpiRes where
  | fail
  | ok (rx0 rx1 rx2 rx3 : Nat)
deriving DecidableEq, Repr

/-- SamplePLTempSensor: set the error topic, run the 4-byte framed
transfer, then check in order: transfer failure, open-circuit bit (byte 3
bit 0), short-to-ground bit (byte 3 bit 1), short-to-supply bit (byte 3
bit 2), generic fault bit (byte 1 bit 0); the first condition that holds
publishes its classification and nothing else; otherwise both temperature
fields are decoded and published (internal junction divided by 16, then
thermocouple divided by 4, one decimal each). -/
def SamplePLTempSensor (res : SpiRes) (s0 : System) : System × List Publish :=
  let s := { s0 with eTopic := .TOPIC_THERMOCOUPLE_STATUS }
  match res with
  | .fail =>
      ({ s with rc := XST_FAILURE },
       [⟨.TOPIC_THERMOCOUPLE_STATUS, "SPI Transaction failure", []⟩])
  | .ok rx0 rx1 rx2 rx3 =>
      let s := { s with rc := XST_SUCCESS }
      if rx3 &&& 0x1 ≠ 0 then (s, [⟨.TOPIC_THERMOCOUPLE_STATUS, "Open Circuit", []⟩])
      else if rx3 &&& 0x2 ≠ 0 then (s, [⟨.TOPIC_THERMOCOUPLE_STATUS, "Short to GND", []⟩])
      else if rx3 &&& 0x4 ≠ 0 then (s, [⟨.TOPIC_THERMOCOUPLE_STATUS, "Short to VCC", []⟩])
      else if rx1 &&& 0x01 ≠ 0 then (s, [⟨.TOPIC_THERMOCOUPLE_STATUS, "Fault", []⟩])
      else
        (s, [⟨.TOPIC_THERMOCOUPLE_BOARD_TEMPERATURE, "%.1f C"
              , [(max31855InternalSigned rx2 rx3 : ℚ) / 16]⟩
            , ⟨.TOPIC_THERMOCOUPLE_TEMPERATURE, "%.1f C"
              , [(max31855ThermoSigned rx0 rx1 : ℚ) / 4]⟩])

/-
  Sampling scheduler (the forever loop of prvMQTTConnectAndPublishTask).
-/

/-- Wake computation of one loop iteration.  Modelled from the spec: the
FreeRTOS vTaskDelayUntil primitive (outside src) wakes at the previous
scheduled wake time plus the period and stores that time back, regardless
of when the work of the previous period finished. -/
def vTaskDelayUntil (prevWakeTime period : Nat) : Nat := prevWakeTime + period

/-- Environment of one sampling period: the hardware outcomes of the three
sample calls, plus the (otherwise unconstrained) time the sampling work
takes, which the wake computation never consults. -/
structure PeriodEnv where
  baro : SampleBaroEnv
  thermo : SpiRes
  hygro : SampleHygroEnv
  busyMs : Nat

/-- One period of the sampling loop body: sample the barometer, the
thermocouple and the hygrometer, strictly in that order, each call made
unconditionally on the System left by the previous one. -/
def runPeriod (env : PeriodEnv) (s : System) : System × List Publish :=
  let r1 := SampleBarometer env.baro s
  let r2 := SamplePLTempSensor env.thermo r1.1
  let r3 := SampleHygrometer env.hygro r2.1
  (r3.1, r1.2.1 ++ r2.2 ++ r3.2.1)

/-- The sampling loop of prvMQTTConnectAndPublishTask, run for a prefix of
periods described by the environment list: each iteration first lines up
with the next period boundary via vTaskDelayUntil and then runs the period
body; no outcome of the body affects whether the next iteration runs.
Returns the wake time after the last period, the final System, and the
publish trace of each period. -/
def prvMQTTPublishLoop :
    List PeriodEnv → Nat → Nat → System → Nat × System × List (List Publish)
  | [], w, _, s => (w, s, [])
  | e :: es, w, period, s =>
      let w1 := vTaskDelayUntil w period
      let r := runPeriod e s
      let rest := prvMQTTPublishLoop es w1 period r.1
      (rest.1, rest.2.1, r.2 :: rest.2.2)

/-
  Arithmetic facts about the bit-level assembly used by the decoders.
-/

/-- Bits of a sum that splits at a power of two: below the split the bits
come from the low part, above it from the high part. -/
theorem testBit_add_mul_two_pow (a c k i : ℕ) (ha : a < 2 ^ k) :
    (a + c * 2 ^ k).testBit i = if i < k then a.testBit i else c.testBit (i - k) := by
  rcases Nat.lt_or_ge i k with h | h
  · rw [if_pos h, Nat.testBit_to_div_mod, Nat.testBit_to_div_mod]
    have hk : 2 ^ k = 2 ^ (k - i) * 2 ^ i := by
      rw [← pow_add]
      congr 1
      omega
    have hstep : (a + c * 2 ^ k) / 2 ^ i = a / 2 ^ i + c * 2 ^ (k - i) := by
      rw [hk, ← mul_assoc, Nat.add_mul_div_right _ _ (Nat.two_pow_pos i)]
    rw [hstep]
    have hsplit : 2 ^ (k - i) = 2 * 2 ^ (k - i - 1) := by
      rw [← pow_succ']
      congr 1
      omega
    have hmod : (a / 2 ^ i + c * 2 ^ (k - i)) % 2 = a / 2 ^ i % 2 := by
      rw [hsplit]
      have : c * (2 * 2 ^ (k - i - 1)) = 2 * (c * 2 ^ (k - i - 1)) := by ring
      rw [this]
      omega
    rw [hmod]
  · rw [if_neg (by omega), Nat.testBit_to_div_mod, Nat.testBit_to_div_mod]
    have hk : 2 ^ i = 2 ^ k * 2 ^ (i - k) := by
      rw [← pow_add]
      congr 1
      omega
    have hdiv : (a + c * 2 ^ k) / 2 ^ i = c / 2 ^ (i - k) := by
      rw [hk, ← Nat.div_div_eq_div_mul]
      have : (a + c * 2 ^ k) / 2 ^ k = a / 2 ^ k + c :=
        Nat.add_mul_div_right _ _ (Nat.two_pow_pos k)
      rw [this, Nat.div_eq_of_lt ha, Nat.zero_add]
    rw [hdiv]

/-- OR of two values that overlap only above a power-of-two split acts as
addition on the low part and OR on the high parts. -/
theorem lor_split (k a c b : ℕ) (ha : a < 2 ^ k) :
    (a + c * 2 ^ k) ||| b * 2 ^ k = a + (c ||| b) * 2 ^ k := by
  apply Nat.eq_of_testBit_eq
  intro i
  rw [Nat.testBit_lor, testBit_add_mul_two_pow a c k i ha,
    testBit_add_mul_two_pow a (c ||| b) k i ha]
  have hb : b * 2 ^ k = 0 + b * 2 ^ k := by omega
  rw [hb, testBit_add_mul_two_pow 0 b k i (Nat.two_pow_pos k)]
  rcases Nat.lt_or_ge i k with h | h
  · simp [h, Nat.zero_testBit]
  · simp [Nat.not_lt.mpr h, Nat.testBit_lor]

/-- OR with a disjoint high part is addition. -/
theorem lor_high_eq_add (k a b : ℕ) (ha : a < 2 ^ k) :
    a ||| b * 2 ^ k = a + b * 2 ^ k := by
  have h := lor_split k a 0 b ha
  simpa using h

/-- OR with 1 fixes an odd number. -/
theorem one_lor_odd (c : ℕ) : 1 ||| (2 * c + 1) = 2 * c + 1 := by
  apply Nat.eq_of_testBit_eq
  intro i
  rw [Nat.testBit_lor]
  cases i with
  | zero =>
      rw [Nat.testBit_to_div_mod, Nat.testBit_to_div_mod]
      simp
      omega
  | succ j =>
      have h1 : Nat.testBit 1 (j + 1) = false := by
        rw [Nat.testBit_to_div_mod]
        have : 1 / 2 ^ (j + 1) = 0 := Nat.div_eq_of_lt (Nat.one_lt_two_pow (by omega))
        simp [this]
      simp [h1]

/-- ORing an odd sign-extension pattern aligned at bit k into a value whose
bit k is set acts as adding the bits strictly above k. -/
theorem sign_lor_eq_add (k c r : ℕ) (h1 : 2 ^ k ≤ r) (h2 : r < 2 ^ k * 2) :
    r ||| (2 * c + 1) * 2 ^ k = (r - 2 ^ k) + (2 * c + 1) * 2 ^ k := by
  have hr : r = (r - 2 ^ k) + 1 * 2 ^ k := by omega
  have hlow : r - 2 ^ k < 2 ^ k := by omega
  calc r ||| (2 * c + 1) * 2 ^ k
      = ((r - 2 ^ k) + 1 * 2 ^ k) ||| (2 * c + 1) * 2 ^ k := by rw [← hr]
    _ = (r - 2 ^ k) + (1 ||| (2 * c + 1)) * 2 ^ k := lor_split k _ 1 _ hlow
    _ = (r - 2 ^ k) + (2 * c + 1) * 2 ^ k := by rw [one_lor_odd]

/-- The masked single-bit test reads off the corresponding binary digit. -/
theorem and_two_pow_ne_zero_iff (x k : ℕ) :
    x &&& 2 ^ k ≠ 0 ↔ x / 2 ^ k % 2 = 1 := by
  rw [Nat.and_two_pow, Nat.testBit_to_div_mod]
  rcases Nat.decEq (x / 2 ^ k % 2) 1 with h | h
  · simp [h]
  · simp [h]

/-- Little-endian assembly of the three pressure bytes. -/
theorem baro_raw_eq (xl l h : ℕ) (hx : xl < 256) (hl : l < 256) :
    xl ||| (l <<< 8) ||| (h <<< 16) = xl + 256 * l + 65536 * h := by
  rw [Nat.shiftLeft_eq, Nat.shiftLeft_eq]
  have e1 : xl ||| l * 2 ^ 8 = xl + l * 2 ^ 8 :=
    lor_high_eq_add 8 xl l (by norm_num; omega)
  rw [e1]
  have h16 : (2 : ℕ) ^ 16 = 2 ^ 16 := rfl
  have e2 : (xl + l * 2 ^ 8) ||| h * 2 ^ 16 = (xl + l * 2 ^ 8) + h * 2 ^ 16 := by
    apply lor_high_eq_add 16
    have : (2 : ℕ) ^ 8 = 256 := by norm_num
    rw [this]
    norm_num
    omega
  rw [e2]
  norm_num
  ring

/-- Restatement of baro_raw_eq through the named accumulator. -/
theorem baroPressureRaw_eq (xl l h : ℕ) (hx : xl < 256) (hl : l < 256) :
    baroPressureRaw xl l h = xl + 256 * l + 65536 * h := by
  unfold baroPressureRaw
  exact baro_raw_eq xl l h hx hl

/-- Little-endian assembly of the two temperature bytes. -/
theorem baroTempRaw_eq (tl th : ℕ) (ht : tl < 256) :
    baroTempRaw tl th = tl + 256 * th := by
  unfold baroTempRaw
  rw [Nat.shiftLeft_eq]
  have h8 : tl < 2 ^ 8 := by norm_num; omega
  rw [lor_high_eq_add 8 tl th h8]
  norm_num
  ring

/-- Bit 23 test of a 24-bit value. -/
theorem and_bit23_iff (x : ℕ) (hx : x < 16777216) : (x &&& 8388608 ≠ 0) ↔ 8388608 ≤ x := by
  have h23 := and_two_pow_ne_zero_iff x 23
  norm_num at h23
  constructor
  · intro hne
    have hd := h23.mp hne
    omega
  · intro hge
    exact h23.mpr (by omega)

/-- Bit 15 test of a 16-bit value. -/
theorem and_bit15_iff (x : ℕ) (hx : x < 65536) : (x &&& 32768 ≠ 0) ↔ 32768 ≤ x := by
  have h15 := and_two_pow_ne_zero_iff x 15
  norm_num at h15
  constructor
  · intro hne
    have hd := h15.mp hne
    omega
  · intro hge
    exact h15.mpr (by omega)

set_option maxRecDepth 2048 in
/-- Bit 7 test of a byte. -/
theorem byte_high_bit : ∀ x : ℕ, x < 256 → ((x &&& 128 = 128) ↔ 128 ≤ x) := by decide

/-- Sign extension of a negative 24-bit value into the s32 pattern. -/
theorem toS32_signext24 (r : ℕ) (h1 : 8388608 ≤ r) (h2 : r < 16777216) :
    toS32 (r ||| 4286578688) = (r : ℤ) - 16777216 := by
  have hs := sign_lor_eq_add 23 255 r (by norm_num; omega) (by norm_num; omega)
  norm_num at hs
  rw [hs]
  unfold toS32
  rw [Nat.mod_eq_of_lt (by omega)]
  rw [if_neg (by omega)]
  omega

/-- Sign extension of a negative 16-bit value into the s32 pattern. -/
theorem toS32_signext16 (r : ℕ) (h1 : 32768 ≤ r) (h2 : r < 65536) :
    toS32 (r ||| 4294934528) = (r : ℤ) - 65536 := by
  have hs := sign_lor_eq_add 15 65535 r (by norm_num; omega) (by norm_num; omega)
  norm_num at hs
  rw [hs]
  unfold toS32
  rw [Nat.mod_eq_of_lt (by omega)]
  rw [if_neg (by omega)]
  omega

/-- Sign extension of a negative 12-bit value into the s32 pattern. -/
theorem toS32_signext12 (r : ℕ) (h1 : 2048 ≤ r) (h2 : r < 4096) :
    toS32 (r ||| 4294965248) = (r : ℤ) - 4096 := by
  have hs := sign_lor_eq_add 11 1048575 r (by norm_num; omega) (by norm_num; omega)
  norm_num at hs
  rw [hs]
  unfold toS32
  rw [Nat.mod_eq_of_lt (by omega)]
  rw [if_neg (by omega)]
  omega

/-- Sign extension of a negative 14-bit value into the s32 pattern. -/
theorem toS32_signext14 (r : ℕ) (h1 : 8192 ≤ r) (h2 : r < 16384) :
    toS32 (r ||| 4294959104) = (r : ℤ) - 16384 := by
  have hs := sign_lor_eq_add 13 262143 r (by norm_num; omega) (by norm_num; omega)
  norm_num at hs
  rw [hs]
  unfold toS32
  rw [Nat.mod_eq_of_lt (by omega)]
  rw [if_neg (by omega)]
  omega

/-- The pressure decode is the 24-bit twos-complement value of the three
bytes. -/
theorem baroPressureSigned_eq (xl l h : ℕ) (hx : xl < 256) (hl : l < 256) (hh : h < 256) :
    baroPressureSigned xl l h =
      if xl + 256 * l + 65536 * h < 8388608
      then ((xl + 256 * l + 65536 * h : ℕ) : ℤ)
      else ((xl + 256 * l + 65536 * h : ℕ) : ℤ) - 16777216 := by
  have hr := baroPressureRaw_eq xl l h hx hl
  have hlt : xl + 256 * l + 65536 * h < 16777216 := by omega
  have hbit := and_bit23_iff (xl + 256 * l + 65536 * h) hlt
  unfold baroPressureSigned
  rw [hr]
  by_cases hc : 8388608 ≤ xl + 256 * l + 65536 * h
  · rw [if_pos (hbit.mpr hc), toS32_signext24 _ hc hlt, if_neg (by omega)]
  · rw [if_neg (fun hne => hc (hbit.mp hne)), if_pos (by omega)]

/-- The temperature decode is the 16-bit twos-complement value of the two
bytes. -/
theorem baroTempSigned_eq (tl th : ℕ) (ht : tl < 256) (hth : th < 256) :
    baroTempSigned tl th =
      if tl + 256 * th < 32768
      then ((tl + 256 * th : ℕ) : ℤ)
      else ((tl + 256 * th : ℕ) : ℤ) - 65536 := by
  have hr := baroTempRaw_eq tl th ht
  have hlt : tl + 256 * th < 65536 := by omega
  have hbit := and_bit15_iff (tl + 256 * th) hlt
  unfold baroTempSigned
  rw [hr]
  by_cases hc : 32768 ≤ tl + 256 * th
  · rw [if_pos (hbit.mpr hc), toS32_signext16 _ hc hlt, if_neg (by omega)]
  · rw [if_neg (fun hne => hc (hbit.mp hne)), if_pos (by omega)]

/-- Concatenation of the internal junction field. -/
theorem max31855InternalRaw_eq (rx2 rx3 : ℕ) (h3 : rx3 < 256) :
    max31855InternalRaw rx2 rx3 = rx3 / 16 + rx2 * 16 := by
  unfold max31855InternalRaw
  rw [Nat.shiftLeft_eq, Nat.shiftRight_eq_div_pow, Nat.lor_comm]
  have hlow : rx3 / 2 ^ 4 < 2 ^ 4 := by
    norm_num
    omega
  rw [lor_high_eq_add 4 (rx3 / 2 ^ 4) rx2 hlow]
  norm_num

/-- Concatenation of the thermocouple field. -/
theorem max31855ThermoRaw_eq (rx0 rx1 : ℕ) (h1 : rx1 < 256) :
    max31855ThermoRaw rx0 rx1 = rx1 / 4 + rx0 * 64 := by
  unfold max31855ThermoRaw
  rw [Nat.shiftLeft_eq, Nat.shiftRight_eq_div_pow, Nat.lor_comm]
  have hlow : rx1 / 2 ^ 2 < 2 ^ 6 := by
    norm_num
    omega
  rw [lor_high_eq_add 6 (rx1 / 2 ^ 2) rx0 hlow]
  norm_num

/-- The internal junction decode is the 12-bit twos-complement value of the
concatenated field, with sign taken from bit 7 of receive byte 2. -/
theorem max31855InternalSigned_eq (rx2 rx3 : ℕ) (h2 : rx2 < 256) (h3 : rx3 < 256) :
    max31855InternalSigned rx2 rx3 =
      if 128 ≤ rx2 then ((rx2 * 16 + rx3 / 16 : ℕ) : ℤ) - 4096
      else ((rx2 * 16 + rx3 / 16 : ℕ) : ℤ) := by
  have hraw := max31855InternalRaw_eq rx2 rx3 h3
  have hbit := byte_high_bit rx2 h2
  unfold max31855InternalSigned
  rw [hraw]
  by_cases hc : 128 ≤ rx2
  · rw [if_pos (hbit.mpr hc), toS32_signext12 _ (by omega) (by omega), if_pos hc]
    omega
  · rw [if_neg (fun hb => hc (hbit.mp hb)), if_neg hc]
    omega

/-- The thermocouple decode is the 14-bit twos-complement value of the
concatenated field, with sign taken from bit 7 of receive byte 0. -/
theorem max31855ThermoSigned_eq (rx0 rx1 : ℕ) (h0 : rx0 < 256) (h1 : rx1 < 256) :
    max31855ThermoSigned rx0 rx1 =
      if 128 ≤ rx0 then ((rx0 * 64 + rx1 / 4 : ℕ) : ℤ) - 16384
      else ((rx0 * 64 + rx1 / 4 : ℕ) : ℤ) := by
  have hraw := max31855ThermoRaw_eq rx0 rx1 h1
  have hbit := byte_high_bit rx0 h0
  unfold max31855ThermoSigned
  rw [hraw]
  by_cases hc : 128 ≤ rx0
  · rw [if_pos (hbit.mpr hc), toS32_signext14 _ (by omega) (by omega), if_pos hc]
    omega
  · rw [if_neg (fun hb => hc (hbit.mp hb)), if_neg hc]
    omega

/-
  Claim C1.
-/

/-- Environment for StartBarometer in which every transaction succeeds, the
swreset bit reads clear at once, but the boot bit reads as still set on all
100 polls of the boot loop. -/
def c1BaroEnv : StartBaroEnv :=
  { whoAmI := .ok [0xBD]
  , wSwreset := .ok
  , swresetReads := fun _ => .ok [0]
  , wBoot := .ok
  , bootReads := fun _ => .ok [0x80]
  , wPd := .ok }

/-- Environment for StartHygrometer in which every transaction succeeds but
the boot bit reads as still set on all 1000 polls of the boot loop. -/
def c1HygroEnv : StartHygroEnv :=
  { whoAmI := .ok [0xBC]
  , wBoot := .ok
  , bootReads := fun _ => .ok [0x80]
  , calib := .ok (List.replicate 16 0x11)
  , wPd := .ok }

set_option maxHeartbeats 4000000 in
set_option maxRecDepth 1000000 in
/-- C1: the claim says exhaustion of the boot-bit polling loops (100 polls
for the barometer, 1000 for the hygrometer) is treated like a transport
error: non-success result code, boot-timeout diagnostic published, all
remaining start sub-steps skipped.  The code does the opposite: the boot
timeout branches assign only the diagnostic text and never set the result
code, so MAY_DIE does not fire, no diagnostic is published, power-up still
runs, the started success report is still published, and start returns
with result code XST_SUCCESS. -/
theorem C1_boot_poll_exhaustion_not_fatal :
    ((StartBarometer c1BaroEnv initSystem).2.1
        = [⟨.TOPIC_BAROMETER_STATUS, "Barometer started", []⟩]
      ∧ (StartBarometer c1BaroEnv initSystem).1.rc = XST_SUCCESS
      ∧ (StartBarometer c1BaroEnv initSystem).2.2 = some ())
    ∧ ((StartHygrometer c1HygroEnv initSystem).2.1
        = [⟨.TOPIC_HYGROMETER_STATUS, "Hygrometer started", []⟩]
      ∧ (StartHygrometer c1HygroEnv initSystem).1.rc = XST_SUCCESS
      ∧ (StartHygrometer c1HygroEnv initSystem).2.2 = some ()) := by
  decide

/-
  Claim C2.
-/

/-- Environment for StartBarometer in which the swreset bit reads as still
set on polls 1 through 99 and reads clear on poll 100, the last permitted
iteration of the 100-bounded loop; everything else succeeds. -/
def c2BaroEnv : StartBaroEnv :=
  { whoAmI := .ok [0xBD]
  , wSwreset := .ok
  , swresetReads := fun i => if i < 99 then .ok [0x04] else .ok [0x00]
  , wBoot := .ok
  , bootReads := fun _ => .ok [0]
  , wPd := .ok }

set_option maxHeartbeats 1000000 in
set_option maxRecDepth 200000 in
/-- C2: the claim says that whenever the polled status bit clears on some
iteration within the retry bound, including the very last permitted
iteration, no timeout is reported.  In the code the loop counter of
for(iTimeout = 100; iTimeout-- Gt 0;) holds 0 when the break is taken on
the 100th iteration, so the following if(iTimeout LessEq 0) branch fires
anyway: the swreset timeout diagnostic is published with result code
XST_FAILURE and start aborts, even though the bit cleared within the
bound. -/
theorem C2_clear_on_last_iteration_reports_timeout :
    (StartBarometer c2BaroEnv initSystem).2.1
        = [⟨.TOPIC_BAROMETER_STATUS, "Barometer swreset timeout", [(1 : ℚ)]⟩]
    ∧ (StartBarometer c2BaroEnv initSystem).1.rc = XST_FAILURE
    ∧ (StartBarometer c2BaroEnv initSystem).2.2 = none := by
  decide

/-
  Claim C3.
-/

/-- Environment for StartBarometer returning identity byte 0xBE, with the
reset-sequence writes set up to fail loudly: if any reset or boot sub-step
executed, its distinct diagnostic would appear in the publish trace. -/
def c3EnvMismatch : StartBaroEnv :=
  { whoAmI := .ok [0xBE]
  , wSwreset := .errSend 5
  , swresetReads := fun _ => .ok [0]
  , wBoot := .errSend 5
  , bootReads := fun _ => .ok [0]
  , wPd := .errSend 5 }

/-- Environment for StartBarometer returning identity byte b, with every
later transaction succeeding and both polled bits clearing at once. -/
def c3EnvGood (b : Nat) : StartBaroEnv :=
  { whoAmI := .ok [b]
  , wSwreset := .ok
  , swresetReads := fun _ => .ok [0]
  , wBoot := .ok
  , bootReads := fun _ => .ok [0]
  , wPd := .ok }

/-- Environment for StartHygrometer returning identity byte b, with every
later transaction succeeding. -/
def c3HygroEnvGood (b : Nat) : StartHygroEnv :=
  { whoAmI := .ok [b]
  , wBoot := .ok
  , bootReads := fun _ => .ok [0]
  , calib := .ok (List.replicate 16 0)
  , wPd := .ok }

set_option maxHeartbeats 1000000 in
set_option maxRecDepth 200000 in
/-- C3: identity byte 0xBE aborts the barometer start before any reset
sub-step, publishing the mismatch diagnostic that carries the observed
byte 0xBE as the result code, and identity byte 0xBD proceeds to the reset
sequencing, as the claim says.  But for observed identity byte 0x00 the
code stores rc = 0 = XST_SUCCESS, the MAY_DIE does not fire, and start runs
to completion reporting success on both sensors, contradicting the claim
that every non-expected byte aborts start with a published mismatch. -/
theorem C3_whoami_zero_bypasses_mismatch_abort :
    ((StartBarometer c3EnvMismatch initSystem).2.1
        = [⟨.TOPIC_BAROMETER_STATUS, "BAROMETER_WHO_AM_I = %08x != BD", [(0xBE : ℚ)]⟩]
      ∧ (StartBarometer c3EnvMismatch initSystem).1.rc = 0xBE
      ∧ (StartBarometer c3EnvMismatch initSystem).2.2 = none)
    ∧ ((StartBarometer (c3EnvGood 0xBD) initSystem).2.1
        = [⟨.TOPIC_BAROMETER_STATUS, "Barometer started", []⟩])
    ∧ ((StartBarometer (c3EnvGood 0) initSystem).2.1
        = [⟨.TOPIC_BAROMETER_STATUS, "Barometer started", []⟩]
      ∧ (StartBarometer (c3EnvGood 0) initSystem).1.rc = XST_SUCCESS)
    ∧ ((StartHygrometer (c3HygroEnvGood 0) initSystem).2.1
        = [⟨.TOPIC_HYGROMETER_STATUS, "Hygrometer started", []⟩]
      ∧ (StartHygrometer (c3HygroEnvGood 0) initSystem).1.rc = XST_SUCCESS) := by
  decide

/-
  Claim C4.
-/

/-- C4: every identity present in the table resolves to its own entry, as
the claim says; but for an identity with no table entry (TOPIC_LAST, the
only such value) the miss path of GetTopicInfo executes
configASSERT(pdTRUE), an assertion on a constant-true condition that never
fires, and returns NULL, so prvPublishTopic continues into the publish
path with the missing entry instead of halting. -/
theorem C4_lookup_miss_assert_never_fires :
    GetTopicInfo TOPIC.TOPIC_LAST = none
    ∧ GetTopicInfoHalts TOPIC.TOPIC_LAST = false
    ∧ prvPublishTopicLookup initSystem TOPIC.TOPIC_LAST = PublishLookup.missingEntryReached
    ∧ ∀ t : TOPIC, t ≠ TOPIC.TOPIC_LAST →
        (GetTopicInfo t).map TopicInfo.eTopic = some t := by
  refine ⟨by decide, by decide, by decide, ?_⟩
  intro t ht
  cases t <;> first | exact absurd rfl ht | decide

/-- Witness for C4 at the first table identity. -/
theorem C4_witness :
    (GetTopicInfo TOPIC.TOPIC_BAROMETER_PRESSURE).map TopicInfo.eTopic
      = some TOPIC.TOPIC_BAROMETER_PRESSURE :=
  C4_lookup_miss_assert_never_fires.2.2.2 TOPIC.TOPIC_BAROMETER_PRESSURE (by decide)

/-
  Claim C5.
-/

/-- Environment for SampleBarometer in which the one-shot bit reads clear
at once and every status-block read returns the given six bytes. -/
def c5Env (st xl l h tl th : ℕ) : SampleBaroEnv :=
  { wOneShot := .ok
  , oneShotReads := fun _ => .ok [0]
  , dataReads := fun _ => .ok [st, xl, l, h, tl, th] }

/-- Content of claim C5 for one status-plus-data block: the sample
publishes exactly the pressure message (value scaled by 1/4096, template
with two decimals) and the temperature message (42.5 plus the value scaled
by 1/480, two decimals), and the decoded values are the little-endian
twos-complement integers of the claim. -/
def C5Statement (st xl l h tl th : ℕ) : Prop :=
  (SampleBarometer (c5Env st xl l h tl th) initSystem).2.1
      = [⟨.TOPIC_BAROMETER_PRESSURE, "%.2f hPa", [(baroPressureSigned xl l h : ℚ) / 4096]⟩
        , ⟨.TOPIC_BAROMETER_TEMPERATURE, "%.2f C",
            [(42.5 : ℚ) + (baroTempSigned tl th : ℚ) / 480]⟩]
  ∧ baroPressureSigned xl l h =
      (if xl + 256 * l + 65536 * h < 8388608 then ((xl + 256 * l + 65536 * h : ℕ) : ℤ)
       else ((xl + 256 * l + 65536 * h : ℕ) : ℤ) - 16777216)
  ∧ baroTempSigned tl th =
      (if tl + 256 * th < 32768 then ((tl + 256 * th : ℕ) : ℤ)
       else ((tl + 256 * th : ℕ) : ℤ) - 65536)

/-- C5: for every 6-byte status and data block whose status byte has both
data-ready bits set, SampleBarometer publishes the 24-bit little-endian
sign-extended pressure divided by 4096 and the 16-bit little-endian
sign-extended temperature divided by 480 plus 42.5, each with a
two-decimal format template, exactly as the claim states. -/
theorem C5_sample_decode (st xl l h tl th : ℕ) (hst : st &&& 3 = 3) (hx : xl < 256)
    (hl : l < 256) (hh : h < 256) (ht : tl < 256) (hth : th < 256) :
    C5Statement st xl l h tl th := by
  refine ⟨?_, baroPressureSigned_eq xl l h hx hl hh, baroTempSigned_eq tl th ht hth⟩
  have hc50 : pollCtrl (fun _ => IicRes.ok [0]) 0x21 0x01
      "ReadIicRegs(6@BAROMETER_REG_STATUS_REG) -> %08x" 50 0 =
      mbind (mayDie (ReadIicReg (IicRes.ok [0]) 0x21)
          "ReadIicRegs(6@BAROMETER_REG_STATUS_REG) -> %08x") (fun b =>
        if b &&& 0x01 = 0 then mpure (.cleared (Int.ofNat 49) b)
        else pollCtrl (fun _ => IicRes.ok [0]) 0x21 0x01
          "ReadIicRegs(6@BAROMETER_REG_STATUS_REG) -> %08x" 49 1) :=
    pollCtrl_succ _ 0x21 0x01 _ 49 0
  have hb50 : pollBlock (fun _ => IicRes.ok [st, xl, l, h, tl, th]) 6 0x27 0x03
      "ReadIicRegs(6@BAROMETER_REG_STATUS_REG) -> %08x" 50 0 =
      mbind (mayDie (ReadIicRegs (IicRes.ok [st, xl, l, h, tl, th]) 6 0x27)
          "ReadIicRegs(6@BAROMETER_REG_STATUS_REG) -> %08x") (fun bs =>
        if bs.headD 0 &&& 0x03 = 0x03 then mpure (.cleared (Int.ofNat 49) bs)
        else pollBlock (fun _ => IicRes.ok [st, xl, l, h, tl, th]) 6 0x27 0x03
          "ReadIicRegs(6@BAROMETER_REG_STATUS_REG) -> %08x" 49 1) :=
    pollBlock_succ _ 6 0x27 0x03 _ 49 0
  simp [SampleBarometer, c5Env, hc50, hb50, mbind, mayDie, mayDieBlock, mpure, mpub,
    WriteIicReg, WriteIicRegsStep, WriteIicRegs, WriteIicRegsBuf,
    ReadIicReg, ReadIicRegs, IicRes.bytes,
    LoopExit.iTimeoutVal, BlockExit.iTimeoutVal, BlockExit.bytes,
    initSystem, XST_SUCCESS, XST_FAILURE, hst]

/-- Witness for C5 at a block with the sign bit of the pressure set. -/
theorem C5_witness : C5Statement 3 0 0 128 255 255 :=
  C5_sample_decode 3 0 0 128 255 255 (by decide) (by decide) (by decide) (by decide)
    (by decide) (by decide)

/-
  Claims C6 and C7.
-/

/-- Publish trace of one SamplePLTempSensor call whose framed transfer
succeeded with the four given receive bytes. -/
def plTempTrace (rx0 rx1 rx2 rx3 : ℕ) : List Publish :=
  (SamplePLTempSensor (SpiRes.ok rx0 rx1 rx2 rx3) initSystem).2

/-- Content of claim C6: the fault bits are evaluated in the order
open-circuit, short-to-ground, short-to-supply, generic fault; the first
set bit publishes exactly its classification, and the two numeric decodes
are published exactly when no fault bit is set. -/
def C6Statement (rx0 rx1 rx2 rx3 : ℕ) : Prop :=
  (rx3 &&& 0x1 ≠ 0 →
      plTempTrace rx0 rx1 rx2 rx3 = [⟨.TOPIC_THERMOCOUPLE_STATUS, "Open Circuit", []⟩])
  ∧ (rx3 &&& 0x1 = 0 → rx3 &&& 0x2 ≠ 0 →
      plTempTrace rx0 rx1 rx2 rx3 = [⟨.TOPIC_THERMOCOUPLE_STATUS, "Short to GND", []⟩])
  ∧ (rx3 &&& 0x1 = 0 → rx3 &&& 0x2 = 0 → rx3 &&& 0x4 ≠ 0 →
      plTempTrace rx0 rx1 rx2 rx3 = [⟨.TOPIC_THERMOCOUPLE_STATUS, "Short to VCC", []⟩])
  ∧ (rx3 &&& 0x1 = 0 → rx3 &&& 0x2 = 0 → rx3 &&& 0x4 = 0 → rx1 &&& 0x01 ≠ 0 →
      plTempTrace rx0 rx1 rx2 rx3 = [⟨.TOPIC_THERMOCOUPLE_STATUS, "Fault", []⟩])
  ∧ (plTempTrace rx0 rx1 rx2 rx3
        = [⟨.TOPIC_THERMOCOUPLE_BOARD_TEMPERATURE, "%.1f C",
              [(max31855InternalSigned rx2 rx3 : ℚ) / 16]⟩
          , ⟨.TOPIC_THERMOCOUPLE_TEMPERATURE, "%.1f C",
              [(max31855ThermoSigned rx0 rx1 : ℚ) / 4]⟩]
      ↔ (rx3 &&& 0x1 = 0 ∧ rx3 &&& 0x2 = 0 ∧ rx3 &&& 0x4 = 0 ∧ rx1 &&& 0x01 = 0))

/-- C6: for every 4-byte receive buffer of a successful framed transfer,
the fault bits are evaluated in the claimed fixed order, the first set bit
publishes exactly its textual classification and suppresses both numeric
decodes, and the numeric decodes are published exactly when none of the
four fault bits is set. -/
theorem C6_fault_priority (rx0 rx1 rx2 rx3 : ℕ) : C6Statement rx0 rx1 rx2 rx3 := by
  unfold C6Statement plTempTrace
  rcases Nat.mod_two_eq_zero_or_one rx3 with h1 | h1 <;>
    rcases Nat.mod_two_eq_zero_or_one rx1 with h4 | h4 <;>
    by_cases h2 : rx3 &&& 0x2 = 0 <;> by_cases h3 : rx3 &&& 0x4 = 0 <;>
    simp [SamplePLTempSensor, initSystem, XST_SUCCESS, XST_FAILURE,
      Nat.and_one_is_mod, h1, h2, h3, h4]

/-- Witness for C6 in the open-circuit case. -/
theorem C6_witness :
    plTempTrace 0 0 0 1 = [⟨.TOPIC_THERMOCOUPLE_STATUS, "Open Circuit", []⟩] :=
  (C6_fault_priority 0 0 0 1).1 (by decide)

/-- Reconstruction of the thermocouple field following the wording of
claim C7 rather than the source: the most significant byte shifted left by
the fractional-bit width of the field, which is 2 since the fixed-point
denominator is 4, OR the next byte shifted right to discard its unrelated
low-order bits, OR the 14-bit sign-extension mask when bit 7 of the most
significant byte is set. -/
def specC7ThermoSigned (rx0 rx1 : Nat) : Int :=
  if rx0 &&& 0x80 = 0x80 then toS32 ((rx0 <<< 2) ||| (rx1 >>> 2) ||| 0xFFFFE000)
  else (((rx0 <<< 2) ||| (rx1 >>> 2) : ℕ) : Int)

/-- Counterexample to C7 as stated: the source shifts the most significant
byte of the thermocouple field left by 6 bits, not by the fractional-bit
width 2 of that field, so the claimed reconstruction disagrees with the
code already at receive bytes 0x01, 0x00. -/
theorem C7_counterexample :
    max31855ThermoSigned 1 0 = 64 ∧ specC7ThermoSigned 1 0 = 4
      ∧ ¬ max31855ThermoSigned 1 0 = specC7ThermoSigned 1 0 := by
  decide

/-- Content of the amended claim C7: both fields are reconstructed by
shifting the most significant byte left by the number of field bits the
following byte contributes (4 for the internal-junction field, 6 for the
thermocouple field), OR-ing in the next byte right-shifted to discard its
unrelated low-order bits, OR-ing in the sign-extension mask exactly when
bit 7 of the most significant byte is set, and dividing by the fixed-point
denominator (16 and 4); the receive block 0x00 0x00 0x64 0x00 decodes to
the internal-junction integer 1600 and the published Celsius value is
exactly 1600 / 16 = 100, a positive value. -/
def C7Statement (rx0 rx1 rx2 rx3 : ℕ) : Prop :=
  (max31855InternalSigned rx2 rx3 =
      if 128 ≤ rx2 then ((rx2 * 16 + rx3 / 16 : ℕ) : ℤ) - 4096
      else ((rx2 * 16 + rx3 / 16 : ℕ) : ℤ))
  ∧ (max31855ThermoSigned rx0 rx1 =
      if 128 ≤ rx0 then ((rx0 * 64 + rx1 / 4 : ℕ) : ℤ) - 16384
      else ((rx0 * 64 + rx1 / 4 : ℕ) : ℤ))
  ∧ max31855InternalSigned 0x64 0x00 = 1600
  ∧ plTempTrace 0 0 0x64 0
      = [⟨.TOPIC_THERMOCOUPLE_BOARD_TEMPERATURE, "%.1f C", [(100 : ℚ)]⟩
        , ⟨.TOPIC_THERMOCOUPLE_TEMPERATURE, "%.1f C", [(0 : ℚ)]⟩]
  ∧ (0 : ℚ) < 100

/-- C7 as amended: the reconstruction shifts the most significant byte by
the bit count contributed by the following byte (4 for the 12-bit
internal-junction field, where it coincides with the fractional-bit width,
and 6 for the 14-bit thermocouple field, where it does not), applies the
sign mask exactly when bit 7 of the most significant byte is set, and
divides by 16 and 4 respectively; the documented scenario block decodes to
1600 and publishes exactly 100 degrees. -/
theorem C7_shift_reconstruction (rx0 rx1 rx2 rx3 : ℕ) (h0 : rx0 < 256) (h1 : rx1 < 256)
    (h2 : rx2 < 256) (h3 : rx3 < 256) : C7Statement rx0 rx1 rx2 rx3 := by
  refine ⟨max31855InternalSigned_eq rx2 rx3 h2 h3, max31855ThermoSigned_eq rx0 rx1 h0 h1,
    by decide, ?_, by norm_num⟩
  have hvi : max31855InternalSigned 0x64 0 = 1600 := by decide
  have hvt : max31855ThermoSigned 0 0 = 0 := by decide
  simp [plTempTrace, SamplePLTempSensor, initSystem, XST_SUCCESS, hvi, hvt]
  norm_num

/-- Witness for C7 at bytes with both sign bits set. -/
theorem C7_witness : C7Statement 129 4 200 16 :=
  C7_shift_reconstruction 129 4 200 16 (by decide) (by decide) (by decide) (by decide)

/-
  Claim C8.
-/

/-- Fully healthy barometer environment for one period. -/
def c8BaroEnv : SampleBaroEnv :=
  { wOneShot := .ok
  , oneShotReads := fun _ => .ok [0]
  , dataReads := fun _ => .ok [3, 0, 0, 0, 0, 0] }

/-- Fully healthy hygrometer environment for one period. -/
def c8HygroEnv : SampleHygroEnv :=
  { wOneShot := .ok
  , oneShotReads := fun _ => .ok [0]
  , dataReads := fun _ => .ok [3, 0, 0, 0, 0] }

/-- One period in which the barometer and the hygrometer hardware are
fully healthy but the thermocouple framed transfer fails. -/
def c8PeriodEnv : PeriodEnv :=
  { baro := c8BaroEnv
  , thermo := .fail
  , hygro := c8HygroEnv
  , busyMs := 7 }

set_option maxHeartbeats 1000000 in
/-- C8: the wake time after n periods is the initial wake time plus n
periods regardless of every sampling outcome and of the time the work
took, every environment prefix yields exactly one trace per period (the
loop never exits on a sample failure), and the samples run in the fixed
order barometer, thermocouple, hygrometer.  But fault isolation across
sensors fails: in a period where the thermocouple transfer fails and the
hygrometer hardware is fully healthy, the stale result code left by the
thermocouple aborts SampleHygrometer at its first MAY_DIE, which publishes
two spurious errors on the hygrometer status channel (the first even
carrying the stale barometer diagnostic text) and no humidity or
temperature measurement. -/
theorem C8_wake_cadence_and_stale_rc :
    (∀ (envs : List PeriodEnv) (w0 T : ℕ) (s0 : System),
        (prvMQTTPublishLoop envs w0 T s0).1 = w0 + envs.length * T
        ∧ (prvMQTTPublishLoop envs w0 T s0).2.2.length = envs.length)
    ∧ ((runPeriod c8PeriodEnv initSystem).2
        = [⟨.TOPIC_BAROMETER_PRESSURE, "%.2f hPa", [(0 : ℚ)]⟩
          , ⟨.TOPIC_BAROMETER_TEMPERATURE, "%.2f C", [(42.5 : ℚ)]⟩
          , ⟨.TOPIC_THERMOCOUPLE_STATUS, "SPI Transaction failure", []⟩
          , ⟨.TOPIC_HYGROMETER_STATUS, "ReadIicRegs(6@BAROMETER_REG_STATUS_REG) -> %08x", [(1 : ℚ)]⟩
          , ⟨.TOPIC_HYGROMETER_STATUS,
              "WriteIicReg(HYGROMETER_REG_CTRL_REG2::HYGROMETER_BFLD_ONE_SHOT) -> %08x", [(1 : ℚ)]⟩]
      ∧ (runPeriod c8PeriodEnv initSystem).1.rc = XST_FAILURE) := by
  constructor
  · intro envs w0 T s0
    induction envs generalizing w0 s0 with
    | nil => simp [prvMQTTPublishLoop]
    | cons e es ih =>
        obtain ⟨ha, hb⟩ := ih (vTaskDelayUntil w0 T) (runPeriod e s0).1
        constructor
        · have hu : (prvMQTTPublishLoop (e :: es) w0 T s0).1
              = (prvMQTTPublishLoop es (vTaskDelayUntil w0 T) T (runPeriod e s0).1).1 := rfl
          rw [hu, ha]
          simp [vTaskDelayUntil]
          ring
        · have hu : (prvMQTTPublishLoop (e :: es) w0 T s0).2.2
              = (runPeriod e s0).2
                :: (prvMQTTPublishLoop es (vTaskDelayUntil w0 T) T (runPeriod e s0).1).2.2 := rfl
          rw [hu]
          simp [hb]
  · have hc50 : pollCtrl (fun _ => IicRes.ok [0]) 0x21 0x01
        "ReadIicRegs(6@BAROMETER_REG_STATUS_REG) -> %08x" 50 0 =
        mbind (mayDie (ReadIicReg (IicRes.ok [0]) 0x21)
            "ReadIicRegs(6@BAROMETER_REG_STATUS_REG) -> %08x") (fun b =>
          if b &&& 0x01 = 0 then mpure (.cleared (Int.ofNat 49) b)
          else pollCtrl (fun _ => IicRes.ok [0]) 0x21 0x01
            "ReadIicRegs(6@BAROMETER_REG_STATUS_REG) -> %08x" 49 1) :=
      pollCtrl_succ _ 0x21 0x01 _ 49 0
    have hb50 : pollBlock (fun _ => IicRes.ok [3, 0, 0, 0, 0, 0]) 6 0x27 0x03
        "ReadIicRegs(6@BAROMETER_REG_STATUS_REG) -> %08x" 50 0 =
        mbind (mayDie (ReadIicRegs (IicRes.ok [3, 0, 0, 0, 0, 0]) 6 0x27)
            "ReadIicRegs(6@BAROMETER_REG_STATUS_REG) -> %08x") (fun bs =>
          if bs.headD 0 &&& 0x03 = 0x03 then mpure (.cleared (Int.ofNat 49) bs)
          else pollBlock (fun _ => IicRes.ok [3, 0, 0, 0, 0, 0]) 6 0x27 0x03
            "ReadIicRegs(6@BAROMETER_REG_STATUS_REG) -> %08x" 49 1) :=
      pollBlock_succ _ 6 0x27 0x03 _ 49 0
    have hp : baroPressureSigned 0 0 0 = 0 := by decide
    have ht : baroTempSigned 0 0 = 0 := by decide
    constructor
    · simp [runPeriod, c8PeriodEnv, c8BaroEnv, c8HygroEnv, SampleBarometer,
        SamplePLTempSensor, SampleHygrometer, hc50, hb50, mbind, mayDie, mayDieBlock,
        mpure, mpub, WriteIicReg, WriteIicRegsStep, WriteIicRegs, WriteIicRegsBuf,
        ReadIicReg, ReadIicRegs, IicRes.bytes, LoopExit.iTimeoutVal,
        BlockExit.iTimeoutVal, BlockExit.bytes, initSystem, XST_SUCCESS, XST_FAILURE,
        hp, ht]
    · simp [runPeriod, c8PeriodEnv, c8BaroEnv, c8HygroEnv, SampleBarometer,
        SamplePLTempSensor, SampleHygrometer, hc50, hb50, mbind, mayDie, mayDieBlock,
        mpure, mpub, WriteIicReg, WriteIicRegsStep, WriteIicRegs, WriteIicRegsBuf,
        ReadIicReg, ReadIicRegs, IicRes.bytes, LoopExit.iTimeoutVal,
        BlockExit.iTimeoutVal, BlockExit.bytes, initSystem, XST_SUCCESS, XST_FAILURE,
        hp, ht]

/-
  Claim C9.
-/

/-- C9: each stop call on a never-started (or any other) System performs
no bus transaction and no publish, sets the topic/error reporting field to
the status channel identity of its sensor, and leaves every other System
Context field (result code, diagnostic text, calibration buffer, bus, GPIO
and broker handles) unchanged. -/
theorem C9_stop_frame (s : System) :
    ((StopBarometer s).1.eTopic = TOPIC.TOPIC_BAROMETER_STATUS
      ∧ (StopBarometer s).1.rc = s.rc
      ∧ (StopBarometer s).1.pcErr = s.pcErr
      ∧ (StopBarometer s).1.pbHygrometerCalibration = s.pbHygrometerCalibration
      ∧ (StopBarometer s).1.iic = s.iic
      ∧ (StopBarometer s).1.gpio = s.gpio
      ∧ (StopBarometer s).1.xMQTTHandle = s.xMQTTHandle
      ∧ (StopBarometer s).2.1 = []
      ∧ (StopBarometer s).2.2 = [])
    ∧ ((StopHygrometer s).1.eTopic = TOPIC.TOPIC_HYGROMETER_STATUS
      ∧ (StopHygrometer s).1.rc = s.rc
      ∧ (StopHygrometer s).1.pcErr = s.pcErr
      ∧ (StopHygrometer s).1.pbHygrometerCalibration = s.pbHygrometerCalibration
      ∧ (StopHygrometer s).1.iic = s.iic
      ∧ (StopHygrometer s).1.gpio = s.gpio
      ∧ (StopHygrometer s).1.xMQTTHandle = s.xMQTTHandle
      ∧ (StopHygrometer s).2.1 = []
      ∧ (StopHygrometer s).2.2 = [])
    ∧ ((StopPLTempSensor s).1.eTopic = TOPIC.TOPIC_THERMOCOUPLE_STATUS
      ∧ (StopPLTempSensor s).1.rc = s.rc
      ∧ (StopPLTempSensor s).1.pcErr = s.pcErr
      ∧ (StopPLTempSensor s).1.pbHygrometerCalibration = s.pbHygrometerCalibration
      ∧ (StopPLTempSensor s).1.iic = s.iic
      ∧ (StopPLTempSensor s).1.gpio = s.gpio
      ∧ (StopPLTempSensor s).1.xMQTTHandle = s.xMQTTHandle
      ∧ (StopPLTempSensor s).2.1 = []
      ∧ (StopPLTempSensor s).2.2 = []) :=
  ⟨⟨rfl, rfl, rfl, rfl, rfl, rfl, rfl, rfl, rfl⟩,
   ⟨rfl, rfl, rfl, rfl, rfl, rfl, rfl, rfl, rfl⟩,
   ⟨rfl, rfl, rfl, rfl, rfl, rfl, rfl, rfl, rfl⟩⟩

/-
  Claim C10.
-/

/-- The buffer component returned by WriteIicRegs is the mutated caller
buffer whether or not the send succeeded. -/
theorem WriteIicRegs_buf (res : IicWrite) (xCount : Int) (pbBuf : List Nat) (s : System) :
    (WriteIicRegs res xCount pbBuf s).2.2.1 = WriteIicRegsBuf xCount pbBuf := by
  cases res <;> simp only [WriteIicRegs] <;> split <;> rfl

/-- Content of claim C10: for a caller buffer with first byte b0, a total
byte count greater than 2 leaves the buffer with the top bit of the first
byte set in place (tail untouched) after the call returns, whatever the
send outcome; a count of 2 or fewer leaves the buffer unchanged. -/
def C10Statement (res : IicWrite) (xCount : Int) (b0 : ℕ) (rest : List ℕ)
    (s : System) : Prop :=
  (2 < xCount → (WriteIicRegs res xCount (b0 :: rest) s).2.2.1 = (b0 ||| 0x80) :: rest)
  ∧ (xCount ≤ 2 → (WriteIicRegs res xCount (b0 :: rest) s).2.2.1 = b0 :: rest)

/-- C10: WriteIicRegs sets the top bit of the first byte of the caller
buffer in place before sending exactly when the total byte count exceeds
2, and leaves the buffer unchanged for counts of 2 or fewer, in every
state and for every send outcome. -/
theorem C10_write_buffer_mutation (res : IicWrite) (xCount : Int) (b0 : ℕ)
    (rest : List ℕ) (s : System) : C10Statement res xCount b0 rest s := by
  unfold C10Statement
  constructor
  · intro hgt
    rw [WriteIicRegs_buf]
    unfold WriteIicRegsBuf
    rw [if_pos hgt]
  · intro hle
    rw [WriteIicRegs_buf]
    unfold WriteIicRegsBuf
    rw [if_neg (by omega)]

/-- Witness for C10 at a three-byte write. -/
theorem C10_witness :
    (WriteIicRegs IicWrite.ok 3 (1 :: [2, 3]) initSystem).2.2.1 = (1 ||| 0x80) :: [2, 3] :=
  (C10_write_buffer_mutation IicWrite.ok 3 1 [2, 3] initSystem).1 (by decide)
